import Mathlib

/-!
A shallow embedding of the authorization, gateway error-handling and
revision-polling logic of the ecobee Python client
(src/ecobee/__init__.py), together with theorems about its behaviour.

Modelling conventions:
* The shelve-backed `self.auth` mapping is an `Auth` record of `Option`
  fields; `none` models a key that is absent or stored as Python `None`
  (the code reads these fields through `.get`, which treats both alike;
  the one exception, header formatting of a stored `None`, lies outside
  the verified paths, which all presuppose real token values).
* Wall-clock readings of `datetime.datetime.now()` are a single integer
  parameter `now` per operation; `timedelta(minutes=e)` is modelled as
  adding `e` to `now`, so timestamps are measured in minutes.
* The network is an oracle: a `Transport` value per endpoint family says
  whether the request raises a connection error or yields a response.
  A response's `.json()` parse is an `Option` of the parsed shape, with
  `none` meaning the body is not valid JSON (Python `ValueError`).
* Every stateful operation returns the final `Auth` record, the list of
  HTTP requests it dispatched, and an `Except Err` outcome; Python
  exceptions are `Except.error` values, and mutations performed before a
  raise persist in the returned record.
* The recursion between `authorize_start` and `authorize_finish` is
  bounded by a fuel parameter (`auth_step`); the chains reachable from
  the verified paths are short, and every theorem supplies enough fuel
  that the fuel bound is never reached.
-/

namespace Ecobee

/-- Python exceptions that the embedded code can raise. -/
inductive Err where
  | ecobee (msg : String)
  | valueError
  | keyError (key : String)
  | fuelExhausted
deriving Repr, DecidableEq

/-- The `self.auth` credential record (shelve-backed mapping). -/
structure Auth where
  access_token : Option String
  refresh_token : Option String
  token_type : Option String
  expiration : Option Int
  required : Option Bool
deriving Repr, DecidableEq

/-- Client configuration: the `apikey` and `scope` constructor arguments. -/
structure Config where
  apikey : String
  scope : String
deriving Repr, DecidableEq

/-- An HTTP request as handed to the `requests` library: the method,
the url, query parameters (`params=`), an optional body (`data=`) and
headers. -/
structure ApiRequest where
  method : String
  url : String
  params : List (String × String)
  body : Option String
  headers : List (String × String)
deriving Repr, DecidableEq

/-- The outcome of one attempted HTTP exchange: either the `requests`
library raises `ConnectionError`, or a response arrives. -/
inductive Transport (β : Type) where
  | conn_error (msg : String)
  | response (r : β)

/-- Parsed JSON body of a successful `GET /authorize` device-pin grant. -/
structure GrantJson where
  code : String
  ecobeePin : String
  expires_in : Int
deriving Repr, DecidableEq

/-- Response to the device-pin grant request (`_raw_get("authorize")`). -/
structure GrantResponse where
  ok : Bool
  text : String
  json : Option GrantJson
deriving Repr, DecidableEq

/-- Parsed JSON body of a `POST /token` response: either the token
payload (success) or an `error_description` object (failure). -/
inductive TokenBody where
  | success (access_token : String) (token_type : String)
      (refresh_token : String) (expires_in : Int)
  | failure (error_description : String)
deriving Repr, DecidableEq

/-- Response to a token exchange or refresh (`_raw_post("token")`). -/
structure TokenResponse where
  ok : Bool
  text : String
  json : Option TokenBody
deriving Repr, DecidableEq

/-- The `status` object of an API error body. -/
structure StatusField where
  code : Int
  message : String
deriving Repr, DecidableEq

/-- Parsed JSON body of a main API response; only the `status` field is
inspected by the embedded error-handling code. -/
structure MainJson where
  status : Option StatusField
deriving Repr, DecidableEq

/-- Response to a main API call (`Client.get` / `Client.post`). -/
structure MainResponse where
  ok : Bool
  text : String
  json : Option MainJson
deriving Repr, DecidableEq

/-- The network oracle: what each endpoint family would answer. -/
structure AuthEnv where
  grant : Transport GrantResponse
  token : Transport TokenResponse
  refresh : Transport TokenResponse

/-- Result of a stateful operation: final credential record, dispatched
HTTP requests in order, and outcome (`.error` models a raised Python
exception). -/
structure StepResult (α : Type) where
  auth : Auth
  calls : List ApiRequest
  out : Except Err α

def url_base : String := "https://api.ecobee.com/"

def APIVERSION : String := "1"

/-- `self.url_api.format(endpoint=endpoint)`. -/
def url_api (endpoint : String) : String :=
  url_base ++ APIVERSION ++ "/" ++ endpoint

/-- A request built by `_raw_get` / `_raw_post`: keyword arguments are
query parameters, the only header is the content type. -/
def raw_request (method : String) (endpoint : String)
    (params : List (String × String)) : ApiRequest :=
  { method := method, url := url_base ++ endpoint, params := params,
    body := none,
    headers := [("Content-Type", "application/json;charset=UTF-8")] }

/-- `Client._authorize_update`: install the token-exchange result, or log
and return on a non-success response whose body carries an
`error_description`; an unparseable body raises (Python `ValueError`
from `response.json()`), a body of the wrong shape raises `KeyError`. -/
def _authorize_update (now : Int) (st : Auth) (r : TokenResponse) :
    Auth × Except Err Unit :=
  if r.ok then
    match r.json with
    | none => (st, .error .valueError)
    | some (.success a t rt e) =>
      ({ st with access_token := some a, token_type := some t,
                 refresh_token := some rt, expiration := some (now + e),
                 required := some false }, .ok ())
    | some (.failure _) => (st, .error (.keyError "access_token"))
  else
    match r.json with
    | none => (st, .error .valueError)
    | some (.failure _) => (st, .ok ())
    | some (.success _ _ _ _) => (st, .error (.keyError "error_description"))

/-- The tail of `Client.authorize_start` past its early returns: issue the
device-pin grant request and store pin, pseudo-token and expiration. -/
def grant_request (cfg : Config) (env : AuthEnv) (now : Int) (st : Auth) :
    StepResult Unit :=
  let req := raw_request "GET" "authorize"
    [("response_type", "ecobeePin"), ("client_id", cfg.apikey), ("scope", cfg.scope)]
  match env.grant with
  | .conn_error e => ⟨st, [req], .error (.ecobee ("Connection error: " ++ e))⟩
  | .response r =>
    if r.ok then
      match r.json with
      | none => ⟨st, [req], .error .valueError⟩
      | some j =>
        ⟨{ st with access_token := some j.code, token_type := some "authorize",
                   expiration := some (now + j.expires_in),
                   refresh_token := none },
         [req], .ok ()⟩
    else ⟨st, [req], .ok ()⟩

/-- Selector for the two mutually recursive authorization entry points. -/
inductive AuthOp where
  | start
  | finish

/-- Fuel-bounded embedding of the mutually recursive pair
`Client.authorize_start` / `Client.authorize_finish`. -/
def auth_step (cfg : Config) (env : AuthEnv) (now : Int) :
    Nat → AuthOp → Auth → StepResult Unit
  | 0, _, st => ⟨st, [], .error .fuelExhausted⟩
  | fuel + 1, .start, st0 =>
    -- self.auth['required'] = True happens before every other check
    let st := { st0 with required := some true }
    let proceed : StepResult Unit :=
      if st.token_type = some "authorize" then
        -- a previous auth was in progress: go finish it
        auth_step cfg env now fuel .finish st
      else grant_request cfg env now st
    match st.refresh_token with
    | some rt => if rt = "" then proceed else ⟨st, [], .ok ()⟩
    | none => proceed
  | fuel + 1, .finish, st =>
    match st.access_token with
    | none => ⟨st, [], .ok ()⟩
    | some pin =>
      if pin = "" then ⟨st, [], .ok ()⟩
      else
        -- self.auth['expiration'] is read with plain indexing here
        match st.expiration with
        | none => ⟨st, [], .error (.keyError "expiration")⟩
        | some e =>
          if now > e then
            -- pin timed out: drop it and restart
            auth_step cfg env now fuel .start { st with access_token := none }
          else
            let req := raw_request "POST" "token"
              [("grant_type", "ecobeePin"), ("code", pin), ("client_id", cfg.apikey)]
            match env.token with
            | .conn_error msg =>
              ⟨st, [req], .error (.ecobee ("Connection error: " ++ msg))⟩
            | .response r =>
              let u := _authorize_update now st r
              ⟨u.1, [req], u.2⟩

/-- `Client.authorize_start`. -/
def authorize_start (fuel : Nat) (cfg : Config) (env : AuthEnv) (now : Int)
    (st : Auth) : StepResult Unit :=
  auth_step cfg env now fuel .start st

/-- `Client.authorize_finish`. -/
def authorize_finish (fuel : Nat) (cfg : Config) (env : AuthEnv) (now : Int)
    (st : Auth) : StepResult Unit :=
  auth_step cfg env now fuel .finish st

/-- The refresh-token exchange performed by `Client.authorize_refresh`
once it has decided to refresh. -/
def refresh_exchange (cfg : Config) (env : AuthEnv) (now : Int) (st : Auth)
    (rt : String) : StepResult Unit :=
  let req := raw_request "POST" "token"
    [("grant_type", "refresh_token"), ("code", rt), ("client_id", cfg.apikey)]
  match env.refresh with
  | .conn_error e => ⟨st, [req], .error (.ecobee ("Connection error: " ++ e))⟩
  | .response r =>
    let u := _authorize_update now st r
    ⟨u.1, [req], u.2⟩

/-- `Client.authorize_refresh(force=True)`; the `force` parameter appears
in the source signature but is never read in the body. -/
def authorize_refresh (fuel : Nat) (cfg : Config) (env : AuthEnv) (now : Int)
    (st : Auth) (force : Bool) : StepResult Unit :=
  match st.refresh_token with
  | none => authorize_start fuel cfg env now st
  | some rt =>
    if rt = "" then authorize_start fuel cfg env now st
    else
      match st.expiration with
      | some e =>
        if e > now then ⟨st, [], .ok ()⟩
        else refresh_exchange cfg env now st rt
      | none => refresh_exchange cfg env now st rt

/-- `Client._headers`: plain indexing into `self.auth`, so a missing key
raises `KeyError`. -/
def headers_of (st : Auth) : Except Err (List (String × String)) :=
  match st.token_type, st.access_token with
  | some tt, some at_ =>
    .ok [("Content-Type", "application/json;charset=UTF-8"),
         ("Authorization", tt ++ " " ++ at_)]
  | none, _ => .error (.keyError "token_type")
  | some _, none => .error (.keyError "access_token")

/-- `Client._handle_error`: parse the error body; code 16 clears the
tokens and restarts authorization; any other code raises an
`EcobeeException` with "code: message"; an unparseable body — including a
`ValueError` escaping the nested `authorize_start` call, which the same
`except ValueError` clause catches — raises an `EcobeeException` carrying
the raw response text. -/
def _handle_error (fuel : Nat) (cfg : Config) (env : AuthEnv) (now : Int)
    (st : Auth) (r : MainResponse) : StepResult Unit :=
  match r.json with
  | none => ⟨st, [], .error (.ecobee ("Response not JSON: " ++ r.text))⟩
  | some j =>
    match j.status with
    | none => ⟨st, [], .error (.keyError "status")⟩
    | some s =>
      if s.code = 16 then
        let res := authorize_start fuel cfg env now
          { st with refresh_token := none, token_type := none }
        match res.out with
        | .error .valueError =>
          ⟨res.auth, res.calls, .error (.ecobee ("Response not JSON: " ++ r.text))⟩
        | _ => res
      else
        ⟨st, [], .error (.ecobee (toString s.code ++ ": " ++ s.message))⟩

/-- `Client.get`: refresh authorization, dispatch an HTTP GET carrying the
serialized payload in the `json` query parameter, and return the parsed
body on success; non-success responses go through `_handle_error` and
yield no result unless an exception is raised. -/
def client_get (fuel : Nat) (cfg : Config) (env : AuthEnv) (now : Int)
    (st : Auth) (endpoint : String) (payload : String)
    (t : Transport MainResponse) : StepResult (Option MainJson) :=
  let r1 := authorize_refresh fuel cfg env now st true
  match r1.out with
  | .error e => ⟨r1.auth, r1.calls, .error e⟩
  | .ok _ =>
    match headers_of r1.auth with
    | .error e => ⟨r1.auth, r1.calls, .error e⟩
    | .ok hs =>
      let req : ApiRequest :=
        { method := "GET", url := url_api endpoint,
          params := [("json", payload)], body := none, headers := hs }
      match t with
      | .conn_error e =>
        ⟨r1.auth, r1.calls ++ [req], .error (.ecobee ("Connection error: " ++ e))⟩
      | .response r =>
        if r.ok then
          match r.json with
          | some j => ⟨r1.auth, r1.calls ++ [req], .ok (some j)⟩
          | none => ⟨r1.auth, r1.calls ++ [req], .error .valueError⟩
        else
          let r2 := _handle_error fuel cfg env now r1.auth r
          ⟨r2.auth, r1.calls ++ [req] ++ r2.calls, r2.out.map (fun _ => none)⟩

/-- `Client.post`: identical to `Client.get` except that the payload is
passed as the request body; the source dispatches it through
`requests.get`, so the method recorded here is "GET". -/
def client_post (fuel : Nat) (cfg : Config) (env : AuthEnv) (now : Int)
    (st : Auth) (endpoint : String) (payload : String)
    (t : Transport MainResponse) : StepResult (Option MainJson) :=
  let r1 := authorize_refresh fuel cfg env now st true
  match r1.out with
  | .error e => ⟨r1.auth, r1.calls, .error e⟩
  | .ok _ =>
    match headers_of r1.auth with
    | .error e => ⟨r1.auth, r1.calls, .error e⟩
    | .ok hs =>
      let req : ApiRequest :=
        { method := "GET", url := url_api endpoint,
          params := [], body := some payload, headers := hs }
      match t with
      | .conn_error e =>
        ⟨r1.auth, r1.calls ++ [req], .error (.ecobee ("Connection error: " ++ e))⟩
      | .response r =>
        if r.ok then
          match r.json with
          | some j => ⟨r1.auth, r1.calls ++ [req], .ok (some j)⟩
          | none => ⟨r1.auth, r1.calls ++ [req], .error .valueError⟩
        else
          let r2 := _handle_error fuel cfg env now r1.auth r
          ⟨r2.auth, r1.calls ++ [req] ++ r2.calls, r2.out.map (fun _ => none)⟩

/-- Split a character list on a separator, Python `str.split` style for a
one-character separator: the empty input yields one empty group. -/
def splitChars (sep : Char) : List Char → List (List Char)
  | [] => [[]]
  | c :: cs =>
    let r := splitChars sep cs
    if c = sep then [] :: r
    else
      match r with
      | [] => [[c]]
      | g :: gs => (c :: g) :: gs

/-- `revision.split(":")`. -/
def splitColon (s : String) : List String :=
  (splitChars ':' s.data).map List.asString

/-- Extract `parts[0]` and `parts[6]` from one `revisionList` entry;
`none` models the `IndexError` of a too-short entry. -/
def parseRevision (rev : String) : Option (String × String) :=
  let parts := splitColon rev
  match parts[0]?, parts[6]? with
  | some i, some r => some (i, r)
  | _, _ => none

/-- `self.lastSeen.get(identifier)`. -/
def lastSeenGet : List (String × String) → String → Option String
  | [], _ => none
  | (k, v) :: rest, key => if k = key then some v else lastSeenGet rest key

/-- `self.lastSeen[identifier] = value` on the association-list model of
the dict: overwrite in place, or append a new binding. -/
def lastSeenSet : List (String × String) → String → String → List (String × String)
  | [], key, val => [(key, val)]
  | (k, v) :: rest, key, val =>
    if k = key then (k, val) :: rest
    else (k, v) :: lastSeenSet rest key val

/-- The revision-diff loop of `Client.poll`: walk the `revisionList`,
report every device whose field 6 differs from the stored value, and
update the stored value as a side effect; `none` models the `IndexError`
of an entry with fewer than seven fields. -/
def poll_revisions (seen : List (String × String)) :
    List String → Option (List String × List (String × String))
  | [] => some ([], seen)
  | rev :: rest =>
    match parseRevision rev with
    | none => none
    | some (identifier, intervalRevision) =>
      if lastSeenGet seen identifier = some intervalRevision then
        poll_revisions seen rest
      else
        match poll_revisions (lastSeenSet seen identifier intervalRevision) rest with
        | some (upd, seen2) => some (identifier :: upd, seen2)
        | none => none

/-- The device identifiers (field 0) of the parseable entries of a
`revisionList`. -/
def revIds (revs : List String) : List String :=
  revs.filterMap (fun r => (parseRevision r).map Prod.fst)

/-! Concrete fixtures used by closed theorems and witnesses. -/

/-- A sample configuration. -/
def cfg0 : Config := { apikey := "APIKEY", scope := "smartWrite" }

/-- A network oracle on which every endpoint answers with a failed,
body-less response; none of the closed theorems that use it ever reach
the network. -/
def env0 : AuthEnv :=
  { grant := .response { ok := false, text := "down", json := none },
    token := .response { ok := false, text := "down", json := none },
    refresh := .response { ok := false, text := "down", json := none } }

/-- A fully authorized, unexpired credential record. -/
def st_valid : Auth :=
  { access_token := some "AT", refresh_token := some "RT",
    token_type := some "Bearer", expiration := some 100,
    required := some false }

/-- A pending device-pin grant whose pin expiration (10) has passed. -/
def st_pending_expired : Auth :=
  { access_token := some "PINCODE", refresh_token := none,
    token_type := some "authorize", expiration := some 10,
    required := some true }

/-- An error response carrying status code 14. -/
def resp14 : MainResponse :=
  { ok := false, text := "err",
    json := some { status := some { code := 14, message := "authentication token has expired" } } }

/-- A successful refresh response installing new tokens. -/
def tokenSuccess : TokenResponse :=
  { ok := true, text := "",
    json := some (.success "AT2" "Bearer" "RT2" 60) }

/-- A network oracle whose refresh endpoint works. -/
def envRefreshOK : AuthEnv :=
  { grant := .response { ok := false, text := "down", json := none },
    token := .response { ok := false, text := "down", json := none },
    refresh := .response tokenSuccess }

/-- A network oracle on which every request fails with a connection
error. -/
def envConnFail : AuthEnv :=
  { grant := .conn_error "connection refused",
    token := .conn_error "connection refused",
    refresh := .conn_error "connection refused" }

/-- A completely empty credential record. -/
def st_empty : Auth :=
  { access_token := none, refresh_token := none, token_type := none,
    expiration := none, required := none }

/-- A successful main API response. -/
def okResp : MainResponse :=
  { ok := true, text := "ok", json := some { status := none } }

/-! Helper lemmas about the last-seen map and the revision diff. -/

theorem lastSeenGet_set_self (m : List (String × String)) (k v : String) :
    lastSeenGet (lastSeenSet m k v) k = some v := by
  induction m with
  | nil => simp [lastSeenSet, lastSeenGet]
  | cons p rest ih =>
    obtain ⟨k0, v0⟩ := p
    by_cases h : k0 = k
    · simp [lastSeenSet, lastSeenGet, h]
    · simp [lastSeenSet, lastSeenGet, h, ih]

theorem lastSeenGet_set_ne (m : List (String × String)) (k v k' : String)
    (h : k ≠ k') : lastSeenGet (lastSeenSet m k v) k' = lastSeenGet m k' := by
  induction m with
  | nil => simp [lastSeenSet, lastSeenGet, h]
  | cons p rest ih =>
    obtain ⟨k0, v0⟩ := p
    by_cases h0 : k0 = k
    · subst h0
      simp [lastSeenSet, lastSeenGet, h]
    · simp [lastSeenSet, lastSeenGet, h0]
      by_cases h1 : k0 = k'
      · simp [h1]
      · simp [h1, ih]

theorem revIds_cons_of_parse {rev : String} {i f : String} (rest : List String)
    (hp : parseRevision rev = some (i, f)) :
    revIds (rev :: rest) = i :: revIds rest := by
  simp [revIds, List.filterMap_cons, hp]

/-- `poll` leaves every key outside the snapshot's identifiers untouched. -/
theorem poll_preserves {revs : List String} :
    ∀ {seen u st'}, poll_revisions seen revs = some (u, st') →
      ∀ k, k ∉ revIds revs → lastSeenGet st' k = lastSeenGet seen k := by
  induction revs with
  | nil =>
    intro seen u st' h k _
    simp [poll_revisions] at h
    rw [h.2]
  | cons rev rest ih =>
    intro seen u st' h k hk
    simp only [poll_revisions] at h
    cases hp : parseRevision rev with
    | none => rw [hp] at h; cases h
    | some p =>
      obtain ⟨i, f⟩ := p
      rw [hp] at h
      dsimp only at h
      rw [revIds_cons_of_parse rest hp] at hk
      have hki : k ≠ i := fun he => hk (he ▸ List.mem_cons_self i _)
      have hkr : k ∉ revIds rest := fun he => hk (List.mem_cons_of_mem i he)
      by_cases hc : lastSeenGet seen i = some f
      · rw [if_pos hc] at h
        exact ih h k hkr
      · rw [if_neg hc] at h
        cases hrec : poll_revisions (lastSeenSet seen i f) rest with
        | none => rw [hrec] at h; cases h
        | some pr =>
          obtain ⟨u2, st2⟩ := pr
          rw [hrec] at h
          simp only [Option.some.injEq, Prod.mk.injEq] at h
          obtain ⟨hu, hst⟩ := h
          subst hst
          rw [ih hrec k hkr]
          exact lastSeenGet_set_ne seen i f k (fun he => hki he.symm)

/-- After a successful `poll`, the stored value of every device in the
snapshot is that device's field 6. -/
theorem poll_sets {revs : List String} :
    ∀ {seen u st'}, (revIds revs).Nodup →
      poll_revisions seen revs = some (u, st') →
      ∀ r ∈ revs, ∃ i f, parseRevision r = some (i, f) ∧ lastSeenGet st' i = some f := by
  induction revs with
  | nil => intro seen u st' _ _ r hr; cases hr
  | cons rev rest ih =>
    intro seen u st' hnd h r hr
    simp only [poll_revisions] at h
    cases hp : parseRevision rev with
    | none => rw [hp] at h; cases h
    | some p =>
      obtain ⟨i, f⟩ := p
      rw [hp] at h
      dsimp only at h
      rw [revIds_cons_of_parse rest hp, List.nodup_cons] at hnd
      by_cases hc : lastSeenGet seen i = some f
      · rw [if_pos hc] at h
        rcases List.mem_cons.mp hr with hr | hr
        · subst hr
          exact ⟨i, f, hp, by rw [poll_preserves h i hnd.1]; exact hc⟩
        · exact ih hnd.2 h r hr
      · rw [if_neg hc] at h
        cases hrec : poll_revisions (lastSeenSet seen i f) rest with
        | none => rw [hrec] at h; cases h
        | some pr =>
          obtain ⟨u2, st2⟩ := pr
          rw [hrec] at h
          simp only [Option.some.injEq, Prod.mk.injEq] at h
          obtain ⟨hu, hst⟩ := h
          subst hst
          rcases List.mem_cons.mp hr with hr | hr
          · subst hr
            refine ⟨i, f, hp, ?_⟩
            rw [poll_preserves hrec i hnd.1]
            exact lastSeenGet_set_self seen i f
          · exact ih hnd.2 hrec r hr

/-- If every entry of the snapshot is already recorded, `poll` reports
nothing and leaves the map unchanged. -/
theorem poll_nochange {revs : List String} :
    ∀ {seen}, (∀ r ∈ revs, ∃ i f, parseRevision r = some (i, f) ∧
        lastSeenGet seen i = some f) →
      poll_revisions seen revs = some ([], seen) := by
  induction revs with
  | nil => intro seen _; simp [poll_revisions]
  | cons rev rest ih =>
    intro seen hall
    obtain ⟨i, f, hp, hg⟩ := hall rev (List.mem_cons_self rev rest)
    simp only [poll_revisions, hp, if_pos hg]
    exact ih (fun r hr => hall r (List.mem_cons_of_mem rev hr))

/-- Every identifier reported by `poll` comes from the snapshot. -/
theorem poll_mem_ids {revs : List String} :
    ∀ {seen u st'}, poll_revisions seen revs = some (u, st') →
      ∀ i ∈ u, i ∈ revIds revs := by
  induction revs with
  | nil =>
    intro seen u st' h i hi
    simp [poll_revisions] at h
    rw [h.1] at hi
    cases hi
  | cons rev rest ih =>
    intro seen u st' h i hi
    simp only [poll_revisions] at h
    cases hp : parseRevision rev with
    | none => rw [hp] at h; cases h
    | some p =>
      obtain ⟨i0, f0⟩ := p
      rw [hp] at h
      dsimp only at h
      rw [revIds_cons_of_parse rest hp]
      by_cases hc : lastSeenGet seen i0 = some f0
      · rw [if_pos hc] at h
        exact List.mem_cons_of_mem i0 (ih h i hi)
      · rw [if_neg hc] at h
        cases hrec : poll_revisions (lastSeenSet seen i0 f0) rest with
        | none => rw [hrec] at h; cases h
        | some pr =>
          obtain ⟨u2, st2⟩ := pr
          rw [hrec] at h
          simp only [Option.some.injEq, Prod.mk.injEq] at h
          obtain ⟨hu, hst⟩ := h
          rw [← hu] at hi
          rcases List.mem_cons.mp hi with hi | hi
          · exact hi ▸ List.mem_cons_self i0 _
          · exact List.mem_cons_of_mem i0 (ih hrec i hi)

/-- C6: the revision diff notifies at most once per change: a second
`poll` against an identical summary snapshot (with pairwise distinct
device identifiers) reports no device and leaves the stored fingerprints
unchanged, because the first call already updated them as a side
effect. -/
theorem poll_second_call_empty (seen : List (String × String))
    (revs : List String) (u : List String) (st1 : List (String × String))
    (hnd : (revIds revs).Nodup)
    (h : poll_revisions seen revs = some (u, st1)) :
    poll_revisions st1 revs = some ([], st1) :=
  poll_nochange (poll_sets hnd h)

/-- Witness for C6 at the spec's two-device scenario. -/
theorem poll_second_call_empty_witness :
    poll_revisions [] ["123456789:a:b:c:d:e:REV1", "987654321:a:b:c:d:e:REV2"]
        = some (["123456789", "987654321"],
                [("123456789", "REV1"), ("987654321", "REV2")])
      ∧ poll_revisions [("123456789", "REV1"), ("987654321", "REV2")]
          ["123456789:a:b:c:d:e:REV1", "987654321:a:b:c:d:e:REV2"]
        = some ([], [("123456789", "REV1"), ("987654321", "REV2")]) :=
  ⟨rfl,
   poll_second_call_empty []
     ["123456789:a:b:c:d:e:REV1", "987654321:a:b:c:d:e:REV2"]
     ["123456789", "987654321"]
     [("123456789", "REV1"), ("987654321", "REV2")] (by decide) rfl⟩

/-- C7 counterexample: a device whose revision string changes only in
field 1 (a to b) while field 6 stays "R" is NOT reported by the second
poll, although a constituent field of its revision string differs from
the previously seen string. -/
theorem poll_ignores_other_fields_cex :
    poll_revisions [] ["1:a:c:d:e:f:R"] = some (["1"], [("1", "R")])
      ∧ poll_revisions [("1", "R")] ["1:b:c:d:e:f:R"] = some ([], [("1", "R")]) :=
  ⟨rfl, rfl⟩

/-- C7 (amended): for a snapshot with pairwise distinct device
identifiers, `poll` reports a device exactly when field 6 of its
revision string differs from the stored last-seen value; changes
confined to the other fields do not trigger a report. -/
theorem poll_reports_iff_interval_changed (seen : List (String × String))
    (revs : List String) (u : List String) (st' : List (String × String))
    (r i f : String)
    (hnd : (revIds revs).Nodup)
    (h : poll_revisions seen revs = some (u, st'))
    (hr : r ∈ revs) (hp : parseRevision r = some (i, f)) :
    i ∈ u ↔ lastSeenGet seen i ≠ some f := by
  induction revs generalizing seen u with
  | nil => cases hr
  | cons rev rest ih =>
    simp only [poll_revisions] at h
    cases hp0 : parseRevision rev with
    | none => rw [hp0] at h; cases h
    | some p =>
      obtain ⟨i0, f0⟩ := p
      rw [hp0] at h
      dsimp only at h
      rw [revIds_cons_of_parse rest hp0, List.nodup_cons] at hnd
      rcases List.mem_cons.mp hr with hre | hre
      · subst hre
        rw [hp0] at hp
        simp only [Option.some.injEq, Prod.mk.injEq] at hp
        obtain ⟨hi, hf⟩ := hp
        subst hi
        subst hf
        by_cases hc : lastSeenGet seen i0 = some f0
        · rw [if_pos hc] at h
          have hnotu : i0 ∉ u := fun hiu => hnd.1 (poll_mem_ids h i0 hiu)
          simp [hnotu, hc]
        · rw [if_neg hc] at h
          cases hrec : poll_revisions (lastSeenSet seen i0 f0) rest with
          | none => rw [hrec] at h; cases h
          | some pr =>
            obtain ⟨u2, st2⟩ := pr
            rw [hrec] at h
            simp only [Option.some.injEq, Prod.mk.injEq] at h
            obtain ⟨hu, hst⟩ := h
            rw [← hu]
            simp [List.mem_cons, hc]
      · have hir : i ∈ revIds rest := by
          rw [revIds, List.mem_filterMap]
          exact ⟨r, hre, by rw [hp]; rfl⟩
        have hii0 : i ≠ i0 := fun he => hnd.1 (he ▸ hir)
        by_cases hc : lastSeenGet seen i0 = some f0
        · rw [if_pos hc] at h
          exact ih seen u hnd.2 h hre
        · rw [if_neg hc] at h
          cases hrec : poll_revisions (lastSeenSet seen i0 f0) rest with
          | none => rw [hrec] at h; cases h
          | some pr =>
            obtain ⟨u2, st2⟩ := pr
            rw [hrec] at h
            simp only [Option.some.injEq, Prod.mk.injEq] at h
            obtain ⟨hu, hst⟩ := h
            rw [← hu]
            have hiff := ih (lastSeenSet seen i0 f0) u2 hnd.2 (hst ▸ hrec) hre
            rw [lastSeenGet_set_ne seen i0 f0 i (fun he => hii0 he.symm)] at hiff
            simpa [List.mem_cons, hii0] using hiff

/-- Witness for C7's amended theorem: with "R" stored for device 1, the
entry "1:b:c:d:e:f:R" is reported exactly when its field 6 differs,
which here it does not. -/
theorem poll_reports_iff_interval_changed_witness :
    (("1" ∈ ([] : List String)) ↔ lastSeenGet [("1", "R")] "1" ≠ some "R") :=
  poll_reports_iff_interval_changed [("1", "R")] ["1:b:c:d:e:f:R"] []
    [("1", "R")] "1:b:c:d:e:f:R" "1" "R" (by decide) rfl
    (List.mem_singleton.mpr rfl) rfl

/-! Helper lemmas and further fixtures for the authorization claims. -/

/-- When no refresh token is stored, `authorize_refresh` hands over to
`authorize_start`, i.e. the device-pin grant flow. -/
theorem refresh_reenters_of_no_token (fuel : Nat) (cfg : Config)
    (env : AuthEnv) (now : Int) (st : Auth) (force : Bool)
    (h : st.refresh_token = none) :
    authorize_refresh fuel cfg env now st force
      = authorize_start fuel cfg env now st := by
  dsimp only [authorize_refresh]
  rw [h]

/-- A valid credential record whose expiration (0) is not in the future
of `now = 0`. -/
def st_valid_expired : Auth :=
  { access_token := some "AT", refresh_token := some "RT",
    token_type := some "Bearer", expiration := some 0,
    required := some false }

/-- A pending device-pin grant whose pin has not yet expired. -/
def st_pending : Auth :=
  { access_token := some "PIN", refresh_token := none,
    token_type := some "authorize", expiration := some 50,
    required := some true }

/-- A network oracle whose token-exchange endpoint works. -/
def envTokenOK : AuthEnv :=
  { grant := .response { ok := false, text := "down", json := none },
    token := .response { ok := true, text := "",
                         json := some (.success "A2" "Bearer" "R2" 60) },
    refresh := .response { ok := false, text := "down", json := none } }

/-- A network oracle whose refresh endpoint answers a non-success
response with a parseable error body. -/
def envRefreshFailBody : AuthEnv :=
  { grant := .response { ok := false, text := "down", json := none },
    token := .response { ok := false, text := "down", json := none },
    refresh := .response { ok := false, text := "denied",
                           json := some (.failure "invalid_grant") } }

/-- C4: with a refresh token stored and an unexpired expiration,
`authorize_refresh` is a no-op: no request is dispatched and the whole
credential record is returned unchanged (for either value of the force
flag); moreover a successful pin-to-token exchange installs a record on
which an immediate `authorize_refresh` likewise performs no further
network call. -/
theorem ensure_valid_fresh_noop (fuel : Nat) (cfg : Config) (now : Int)
    (a tt : Option String) (req : Option Bool) (rt : String) (e : Int)
    (hne : rt ≠ "") (hfut : e > now) :
    (∀ (env : AuthEnv) (force : Bool),
      authorize_refresh fuel cfg env now ⟨a, some rt, tt, some e, req⟩ force
        = ⟨⟨a, some rt, tt, some e, req⟩, [], .ok ()⟩)
    ∧ ∀ (env : AuthEnv) (force : Bool) (st0 : Auth) (pin : String) (pe : Int)
        (ttxt acc t rt2 : String) (ei : Int),
        st0.access_token = some pin → pin ≠ "" → st0.expiration = some pe →
        ¬ now > pe →
        env.token = .response ⟨true, ttxt, some (.success acc t rt2 ei)⟩ →
        rt2 ≠ "" → 1 ≤ ei →
        authorize_finish (fuel + 1) cfg env now st0
          = ⟨{ st0 with
                access_token := some acc, token_type := some t,
                refresh_token := some rt2, expiration := some (now + ei),
                required := some false },
             [raw_request "POST" "token"
                [("grant_type", "ecobeePin"), ("code", pin),
                 ("client_id", cfg.apikey)]],
             .ok ()⟩
        ∧ authorize_refresh fuel cfg env now
            { st0 with
               access_token := some acc, token_type := some t,
               refresh_token := some rt2, expiration := some (now + ei),
               required := some false } force
          = ⟨{ st0 with
                access_token := some acc, token_type := some t,
                refresh_token := some rt2, expiration := some (now + ei),
                required := some false }, [], .ok ()⟩ := by
  constructor
  · intro env force
    dsimp only [authorize_refresh]
    rw [if_neg hne, if_pos hfut]
  · intro env force st0 pin pe ttxt acc t rt2 ei hacc hpin hexp hpe henv hrt2 hei
    have hfresh : now + ei > now := by omega
    constructor
    · dsimp only [authorize_finish, auth_step]
      rw [hacc]
      dsimp only
      rw [if_neg hpin, hexp]
      dsimp only
      rw [if_neg hpe, henv]
      dsimp only
      simp [_authorize_update]
    · dsimp only [authorize_refresh]
      rw [if_neg hrt2, if_pos hfresh]

/-- Witness for C4 at a concrete fresh record and a concrete successful
pin-to-token exchange. -/
theorem ensure_valid_fresh_noop_witness :
    (authorize_refresh 8 cfg0 env0 0
        ⟨some "AT", some "RT", some "Bearer", some 100, some false⟩ false
      = ⟨⟨some "AT", some "RT", some "Bearer", some 100, some false⟩, [], .ok ()⟩)
    ∧ (authorize_finish 9 cfg0 envTokenOK 0 st_pending
        = ⟨⟨some "A2", some "R2", some "Bearer", some (0 + 60), some false⟩,
           [raw_request "POST" "token"
              [("grant_type", "ecobeePin"), ("code", "PIN"),
               ("client_id", "APIKEY")]],
           .ok ()⟩
      ∧ authorize_refresh 8 cfg0 envTokenOK 0
          ⟨some "A2", some "R2", some "Bearer", some (0 + 60), some false⟩ false
        = ⟨⟨some "A2", some "R2", some "Bearer", some (0 + 60), some false⟩,
           [], .ok ()⟩) :=
  ⟨(ensure_valid_fresh_noop 8 cfg0 0 (some "AT") (some "Bearer") (some false)
      "RT" 100 (by decide) (by decide)).1 env0 false,
   (ensure_valid_fresh_noop 8 cfg0 0 (some "AT") (some "Bearer") (some false)
      "RT" 100 (by decide) (by decide)).2 envTokenOK false st_pending "PIN" 50
      "" "A2" "Bearer" "R2" 60 rfl (by decide) rfl (by decide) rfl (by decide)
      (by decide)⟩

/-- C5 counterexample: with a refresh token stored, a future expiration
(100 at `now = 0`), a working refresh endpoint and `force = true`, the
claim predicts a refresh-token exchange; `authorize_refresh` instead
dispatches no request and leaves the record unchanged, because the
source never reads the `force` parameter. -/
theorem force_flag_ignored_cex :
    authorize_refresh 8 cfg0 envRefreshOK 0 st_valid true
      = ⟨st_valid, [], .ok ()⟩ := rfl

/-- C5 (amended): `authorize_refresh` performs the refresh-token exchange
exactly when a refresh token is stored and the stored expiration is not
in the future; a successful exchange installs the new record; the force
flag has no effect on the decision. -/
theorem refresh_exactly_when_expired (fuel : Nat) (cfg : Config)
    (env : AuthEnv) (now : Int) (st : Auth) (force : Bool) (rt : String)
    (e : Int) (rtxt acc t rt2 : String) (ei : Int)
    (hrt : st.refresh_token = some rt) (hne : rt ≠ "")
    (hexp : st.expiration = some e) (hpast : ¬ e > now)
    (henv : env.refresh = .response ⟨true, rtxt, some (.success acc t rt2 ei)⟩) :
    (∀ f1 f2 : Bool,
      authorize_refresh fuel cfg env now st f1
        = authorize_refresh fuel cfg env now st f2)
    ∧ authorize_refresh fuel cfg env now st force
      = ⟨{ st with
            access_token := some acc, token_type := some t,
            refresh_token := some rt2, expiration := some (now + ei),
            required := some false },
         [raw_request "POST" "token"
            [("grant_type", "refresh_token"), ("code", rt),
             ("client_id", cfg.apikey)]],
         .ok ()⟩ := by
  refine ⟨fun f1 f2 => rfl, ?_⟩
  dsimp only [authorize_refresh]
  rw [hrt]
  dsimp only
  rw [if_neg hne, hexp]
  dsimp only
  rw [if_neg hpast]
  dsimp only [refresh_exchange]
  rw [henv]
  simp [_authorize_update]

/-- Witness for C5's amended theorem at a concrete expired record. -/
theorem refresh_exactly_when_expired_witness :
    (authorize_refresh 8 cfg0 envRefreshOK 0 st_valid_expired true
      = authorize_refresh 8 cfg0 envRefreshOK 0 st_valid_expired false)
    ∧ authorize_refresh 8 cfg0 envRefreshOK 0 st_valid_expired true
      = ⟨⟨some "AT2", some "RT2", some "Bearer", some (0 + 60), some false⟩,
         [raw_request "POST" "token"
            [("grant_type", "refresh_token"), ("code", "RT"),
             ("client_id", "APIKEY")]],
         .ok ()⟩ :=
  ⟨(refresh_exactly_when_expired 8 cfg0 envRefreshOK 0 st_valid_expired true
      "RT" 0 "" "AT2" "Bearer" "RT2" 60 rfl (by decide) rfl (by decide) rfl).1
      true false,
   (refresh_exactly_when_expired 8 cfg0 envRefreshOK 0 st_valid_expired true
      "RT" 0 "" "AT2" "Bearer" "RT2" 60 rfl (by decide) rfl (by decide) rfl).2⟩

/-- C1 counterexample: a gateway call with a valid stored credential
receiving a non-success response whose body is JSON with status code 14
raises an `EcobeeException` "14: ..." instead of returning without a
result; no forced refresh-token exchange is dispatched (the only request
in the trace is the original GET). -/
theorem gateway_code14_raises_cex :
    client_get 8 cfg0 env0 0 st_valid "thermostat" "{}" (.response resp14)
      = ⟨st_valid,
         [{ method := "GET", url := "https://api.ecobee.com/1/thermostat",
            params := [("json", "{}")], body := none,
            headers := [("Content-Type", "application/json;charset=UTF-8"),
                        ("Authorization", "Bearer AT")] }],
         .error (.ecobee "14: authentication token has expired")⟩ := rfl

/-- C1 (amended): a gateway call with a valid stored credential whose
non-success response carries any status code other than 16 (code 14
included) raises an `EcobeeException` carrying "code: message"; the
stored credential record, its refresh_token in particular, is unchanged
and no refresh-token exchange is dispatched — code 14 receives no
special handling. -/
theorem gateway_non_revoked_error_raises (fuel : Nat) (cfg : Config)
    (env : AuthEnv) (now : Int) (ep pl : String) (acc rt tt : String)
    (e : Int) (req : Option Bool) (txt : String) (c : Int) (m : String)
    (hne : rt ≠ "") (hfut : e > now) (hc : c ≠ 16) :
    client_get fuel cfg env now ⟨some acc, some rt, some tt, some e, req⟩ ep pl
        (.response ⟨false, txt, some ⟨some ⟨c, m⟩⟩⟩)
      = ⟨⟨some acc, some rt, some tt, some e, req⟩,
         [⟨"GET", url_api ep, [("json", pl)], none,
           [("Content-Type", "application/json;charset=UTF-8"),
            ("Authorization", tt ++ " " ++ acc)]⟩],
         .error (.ecobee (toString c ++ ": " ++ m))⟩ := by
  dsimp only [client_get, authorize_refresh]
  rw [if_neg hne, if_pos hfut]
  dsimp only [headers_of, _handle_error]
  rw [if_neg hc]
  rfl

/-- Witness for C1's amended theorem at status code 99. -/
theorem gateway_non_revoked_error_raises_witness :
    client_get 8 cfg0 env0 0 ⟨some "AT", some "RT", some "Bearer", some 100, some false⟩
        "thermostat" "{}" (.response ⟨false, "bad", some ⟨some ⟨99, "strange"⟩⟩⟩)
      = ⟨⟨some "AT", some "RT", some "Bearer", some 100, some false⟩,
         [⟨"GET", url_api "thermostat", [("json", "{}")], none,
           [("Content-Type", "application/json;charset=UTF-8"),
            ("Authorization", "Bearer" ++ " " ++ "AT")]⟩],
         .error (.ecobee (toString (99 : Int) ++ ": " ++ "strange"))⟩ :=
  gateway_non_revoked_error_raises 8 cfg0 env0 0 "thermostat" "{}" "AT" "RT"
    "Bearer" 100 (some false) "bad" 99 "strange" (by decide) (by decide)
    (by decide)

/-- C2 counterexample: a gateway call with a valid stored credential
receiving a code-16 response, on a network where the restart grant
request hits a connection error, raises an `EcobeeException` carrying
the connection-error text (after clearing the tokens and marking
authorization required) — contradicting the claim that a code-16 call
raises no exception. -/
theorem gateway_code16_conn_error_raises_cex :
    client_get 8 cfg0 envConnFail 0 st_valid "thermostat" "{}"
        (.response ⟨false, "err", some ⟨some ⟨16, "revoked"⟩⟩⟩)
      = ⟨⟨some "AT", none, none, some 100, some true⟩,
         [⟨"GET", url_api "thermostat", [("json", "{}")], none,
           [("Content-Type", "application/json;charset=UTF-8"),
            ("Authorization", "Bearer AT")]⟩,
          raw_request "GET" "authorize"
            [("response_type", "ecobeePin"), ("client_id", "APIKEY"),
             ("scope", "smartWrite")]],
         .error (.ecobee "Connection error: connection refused")⟩ := rfl

/-- C2 (amended): a gateway call with a valid stored credential
receiving a non-success response whose body is JSON with status code 16
clears the stored refresh_token and token_type and proceeds into
`authorize_start` from the cleared record within the same call; provided
the restart grant request is answered by an HTTP response that is
non-success or has a parseable body — rather than a connection error or
an unparseable success body, which make the call raise — the call raises
nothing and yields no result, the final record has no refresh_token, and
any subsequent `authorize_refresh` on it hands over to the device-pin
grant flow instead of attempting a refresh. -/
theorem gateway_code16_reenters_pin_flow (fuel : Nat) (cfg : Config)
    (now : Int) (ep pl : String) (acc rt tt : String) (e : Int)
    (req : Option Bool) (txt m : String) (gok : Bool) (gtxt : String)
    (gjson : Option GrantJson) (tk rf : Transport TokenResponse)
    (hne : rt ≠ "") (hfut : e > now)
    (hgrant : gok = false ∨ gjson.isSome) :
    (_handle_error (fuel + 1) cfg ⟨.response ⟨gok, gtxt, gjson⟩, tk, rf⟩ now
        ⟨some acc, some rt, some tt, some e, req⟩ ⟨false, txt, some ⟨some ⟨16, m⟩⟩⟩
      = authorize_start (fuel + 1) cfg ⟨.response ⟨gok, gtxt, gjson⟩, tk, rf⟩ now
          ⟨some acc, none, none, some e, req⟩)
    ∧ (client_get (fuel + 1) cfg ⟨.response ⟨gok, gtxt, gjson⟩, tk, rf⟩ now
        ⟨some acc, some rt, some tt, some e, req⟩ ep pl
        (.response ⟨false, txt, some ⟨some ⟨16, m⟩⟩⟩)).out = .ok none
    ∧ (client_get (fuel + 1) cfg ⟨.response ⟨gok, gtxt, gjson⟩, tk, rf⟩ now
        ⟨some acc, some rt, some tt, some e, req⟩ ep pl
        (.response ⟨false, txt, some ⟨some ⟨16, m⟩⟩⟩)).auth.refresh_token = none
    ∧ ∀ (f2 : Nat) (cfg2 : Config) (env2 : AuthEnv) (now2 : Int) (force : Bool),
        authorize_refresh f2 cfg2 env2 now2
          (client_get (fuel + 1) cfg ⟨.response ⟨gok, gtxt, gjson⟩, tk, rf⟩ now
            ⟨some acc, some rt, some tt, some e, req⟩ ep pl
            (.response ⟨false, txt, some ⟨some ⟨16, m⟩⟩⟩)).auth force
        = authorize_start f2 cfg2 env2 now2
            (client_get (fuel + 1) cfg ⟨.response ⟨gok, gtxt, gjson⟩, tk, rf⟩ now
              ⟨some acc, some rt, some tt, some e, req⟩ ep pl
              (.response ⟨false, txt, some ⟨some ⟨16, m⟩⟩⟩)).auth := by
  rcases hgrant with hg | hg
  · subst hg
    refine ⟨?_, ?_, ?_, ?_⟩
    · dsimp only [_handle_error, authorize_start, auth_step, grant_request]
      rfl
    · dsimp only [client_get, authorize_refresh]
      rw [if_neg hne, if_pos hfut]
      dsimp only [headers_of, _handle_error, authorize_start, auth_step,
        grant_request]
      rfl
    · dsimp only [client_get, authorize_refresh]
      rw [if_neg hne, if_pos hfut]
      dsimp only [headers_of, _handle_error, authorize_start, auth_step,
        grant_request]
      rfl
    · intro f2 cfg2 env2 now2 force
      refine refresh_reenters_of_no_token f2 cfg2 env2 now2 _ force ?_
      dsimp only [client_get, authorize_refresh]
      rw [if_neg hne, if_pos hfut]
      dsimp only [headers_of, _handle_error, authorize_start, auth_step,
        grant_request]
      rfl
  · obtain ⟨j, hj⟩ := Option.isSome_iff_exists.mp hg
    subst hj
    by_cases hgok : gok = true
    · subst hgok
      refine ⟨?_, ?_, ?_, ?_⟩
      · dsimp only [_handle_error, authorize_start, auth_step, grant_request]
        rfl
      · dsimp only [client_get, authorize_refresh]
        rw [if_neg hne, if_pos hfut]
        dsimp only [headers_of, _handle_error, authorize_start, auth_step,
          grant_request]
        rfl
      · dsimp only [client_get, authorize_refresh]
        rw [if_neg hne, if_pos hfut]
        dsimp only [headers_of, _handle_error, authorize_start, auth_step,
          grant_request]
        rfl
      · intro f2 cfg2 env2 now2 force
        refine refresh_reenters_of_no_token f2 cfg2 env2 now2 _ force ?_
        dsimp only [client_get, authorize_refresh]
        rw [if_neg hne, if_pos hfut]
        dsimp only [headers_of, _handle_error, authorize_start, auth_step,
          grant_request]
        rfl
    · have hgf : gok = false := by
        cases gok
        · rfl
        · exact absurd rfl hgok
      subst hgf
      refine ⟨?_, ?_, ?_, ?_⟩
      · dsimp only [_handle_error, authorize_start, auth_step, grant_request]
        rfl
      · dsimp only [client_get, authorize_refresh]
        rw [if_neg hne, if_pos hfut]
        dsimp only [headers_of, _handle_error, authorize_start, auth_step,
          grant_request]
        rfl
      · dsimp only [client_get, authorize_refresh]
        rw [if_neg hne, if_pos hfut]
        dsimp only [headers_of, _handle_error, authorize_start, auth_step,
          grant_request]
        rfl
      · intro f2 cfg2 env2 now2 force
        refine refresh_reenters_of_no_token f2 cfg2 env2 now2 _ force ?_
        dsimp only [client_get, authorize_refresh]
        rw [if_neg hne, if_pos hfut]
        dsimp only [headers_of, _handle_error, authorize_start, auth_step,
          grant_request]
        rfl

/-- Witness for C2's amended theorem at a concrete code-16 response
whose restart grant request fails softly. -/
theorem gateway_code16_reenters_pin_flow_witness :
    (_handle_error 8 cfg0 env0 0 ⟨some "AT", some "RT", some "Bearer", some 100, some false⟩
        ⟨false, "err", some ⟨some ⟨16, "revoked"⟩⟩⟩
      = authorize_start 8 cfg0 env0 0 ⟨some "AT", none, none, some 100, some false⟩)
    ∧ (client_get 8 cfg0 env0 0 ⟨some "AT", some "RT", some "Bearer", some 100, some false⟩
        "thermostat" "{}" (.response ⟨false, "err", some ⟨some ⟨16, "revoked"⟩⟩⟩)).out = .ok none
    ∧ (client_get 8 cfg0 env0 0 ⟨some "AT", some "RT", some "Bearer", some 100, some false⟩
        "thermostat" "{}" (.response ⟨false, "err", some ⟨some ⟨16, "revoked"⟩⟩⟩)).auth.refresh_token = none
    ∧ authorize_refresh 3 cfg0 env0 5
        (client_get 8 cfg0 env0 0 ⟨some "AT", some "RT", some "Bearer", some 100, some false⟩
          "thermostat" "{}" (.response ⟨false, "err", some ⟨some ⟨16, "revoked"⟩⟩⟩)).auth false
      = authorize_start 3 cfg0 env0 5
          (client_get 8 cfg0 env0 0 ⟨some "AT", some "RT", some "Bearer", some 100, some false⟩
            "thermostat" "{}" (.response ⟨false, "err", some ⟨some ⟨16, "revoked"⟩⟩⟩)).auth :=
  have T := gateway_code16_reenters_pin_flow 7 cfg0 0 "thermostat" "{}" "AT"
    "RT" "Bearer" 100 (some false) "err" "revoked" false "down" none
    (.response ⟨false, "down", none⟩) (.response ⟨false, "down", none⟩)
    (by decide) (by decide) (Or.inl rfl)
  ⟨T.1, T.2.1, T.2.2.1, T.2.2.2 3 cfg0 env0 5 false⟩

/-- C10: a gateway call with a valid stored credential whose non-success
response body is not parseable as JSON raises an `EcobeeException` whose
message is "Response not JSON: " followed by the raw response text,
preserved verbatim. -/
theorem nonjson_error_preserves_raw_text (fuel : Nat) (cfg : Config)
    (env : AuthEnv) (now : Int) (ep pl : String) (acc rt tt : String)
    (e : Int) (req : Option Bool) (txt : String)
    (hne : rt ≠ "") (hfut : e > now) :
    client_get fuel cfg env now ⟨some acc, some rt, some tt, some e, req⟩ ep pl
        (.response ⟨false, txt, none⟩)
      = ⟨⟨some acc, some rt, some tt, some e, req⟩,
         [⟨"GET", url_api ep, [("json", pl)], none,
           [("Content-Type", "application/json;charset=UTF-8"),
            ("Authorization", tt ++ " " ++ acc)]⟩],
         .error (.ecobee ("Response not JSON: " ++ txt))⟩ := by
  dsimp only [client_get, authorize_refresh]
  rw [if_neg hne, if_pos hfut]
  rfl

/-- Witness for C10 at a concrete HTML error body. -/
theorem nonjson_error_preserves_raw_text_witness :
    client_get 8 cfg0 env0 0 ⟨some "AT", some "RT", some "Bearer", some 100, some false⟩
        "thermostat" "{}" (.response ⟨false, "<html>502</html>", none⟩)
      = ⟨⟨some "AT", some "RT", some "Bearer", some 100, some false⟩,
         [⟨"GET", url_api "thermostat", [("json", "{}")], none,
           [("Content-Type", "application/json;charset=UTF-8"),
            ("Authorization", "Bearer" ++ " " ++ "AT")]⟩],
         .error (.ecobee ("Response not JSON: " ++ "<html>502</html>"))⟩ :=
  nonjson_error_preserves_raw_text 8 cfg0 env0 0 "thermostat" "{}" "AT" "RT"
    "Bearer" 100 (some false) "<html>502</html>" (by decide) (by decide)

/-- C3: for a valid credential, `Client.post` dispatches a request whose
method is "GET" (the source wraps `requests.get`, despite its docstring)
with the serialized payload as the request body, while `Client.get`
dispatches a GET whose `json` query parameter carries the payload; both
attach the Authorization and Content-Type headers. -/
theorem post_dispatches_http_get :
    (client_post 8 cfg0 env0 0 st_valid "thermostat" "PAYLOAD" (.response okResp)).calls
        = [{ method := "GET", url := "https://api.ecobee.com/1/thermostat",
             params := [], body := some "PAYLOAD",
             headers := [("Content-Type", "application/json;charset=UTF-8"),
                         ("Authorization", "Bearer AT")] }]
      ∧ (client_get 8 cfg0 env0 0 st_valid "thermostat" "PAYLOAD" (.response okResp)).calls
        = [{ method := "GET", url := "https://api.ecobee.com/1/thermostat",
             params := [("json", "PAYLOAD")], body := none,
             headers := [("Content-Type", "application/json;charset=UTF-8"),
                         ("Authorization", "Bearer AT")] }] :=
  ⟨rfl, rfl⟩

/-- C8: with a pending pin (token_type "authorize") whose expiration (10)
has passed at `now = 20`, `authorize_finish` merely clears the stored
pseudo-token and returns: even against a network that would refuse every
connection, no request at all is dispatched (the trace is empty), so no
new grant is issued and no fresh pin is stored — `authorize_start`
bounces back into `authorize_finish`, which bails out for lack of an
access token. -/
theorem expired_pin_dead_end :
    authorize_finish 8 cfg0 envConnFail 20 st_pending_expired
      = ⟨{ st_pending_expired with access_token := none }, [], .ok ()⟩ := rfl

/-- C9 counterexample: a connection error during the device-pin grant
request makes `authorize_start` raise an `EcobeeException` to the
caller (after marking authorization required), contrary to the claim
that transport failures surface as exception-free no-ops. -/
theorem auth_conn_error_raises_cex :
    authorize_start 8 cfg0 envConnFail 0 st_empty
      = ⟨{ st_empty with required := some true },
         [raw_request "GET" "authorize"
            [("response_type", "ecobeePin"), ("client_id", "APIKEY"),
             ("scope", "smartWrite")]],
         .error (.ecobee "Connection error: connection refused")⟩ := rfl

/-- C9 (amended): a non-success HTTP response during the device-pin
grant is logged and leaves the token fields unchanged without raising
(`authorize_start` first marks authorization required); a non-success
refresh response with a parseable error body is likewise an
exception-free no-op; but a connection error during the refresh exchange
raises an `EcobeeException` carrying the connection-error text. -/
theorem auth_soft_fail_semantics (fuel : Nat) (cfg : Config) (now : Int) :
    (∀ (env : AuthEnv) (st : Auth) (gtxt : String) (gj : Option GrantJson),
      env.grant = .response ⟨false, gtxt, gj⟩ → st.refresh_token = none →
      st.token_type ≠ some "authorize" →
      authorize_start (fuel + 1) cfg env now st
        = ⟨{ st with required := some true },
           [raw_request "GET" "authorize"
              [("response_type", "ecobeePin"), ("client_id", cfg.apikey),
               ("scope", cfg.scope)]],
           .ok ()⟩)
    ∧ (∀ (env : AuthEnv) (force : Bool) (acc tt : Option String)
        (req : Option Bool) (rt : String) (e : Int) (rtxt d : String),
        rt ≠ "" → ¬ e > now →
        env.refresh = .response ⟨false, rtxt, some (.failure d)⟩ →
        authorize_refresh fuel cfg env now ⟨acc, some rt, tt, some e, req⟩ force
          = ⟨⟨acc, some rt, tt, some e, req⟩,
             [raw_request "POST" "token"
                [("grant_type", "refresh_token"), ("code", rt),
                 ("client_id", cfg.apikey)]],
             .ok ()⟩)
    ∧ (∀ (env : AuthEnv) (force : Bool) (acc tt : Option String)
        (req : Option Bool) (rt : String) (e : Int) (msg : String),
        rt ≠ "" → ¬ e > now →
        env.refresh = .conn_error msg →
        authorize_refresh fuel cfg env now ⟨acc, some rt, tt, some e, req⟩ force
          = ⟨⟨acc, some rt, tt, some e, req⟩,
             [raw_request "POST" "token"
                [("grant_type", "refresh_token"), ("code", rt),
                 ("client_id", cfg.apikey)]],
             .error (.ecobee ("Connection error: " ++ msg))⟩) := by
  refine ⟨?_, ?_, ?_⟩
  · intro env st gtxt gj hgr hrt htt
    dsimp only [authorize_start, auth_step]
    rw [hrt]
    dsimp only
    rw [if_neg htt]
    dsimp only [grant_request]
    rw [hgr]
    rfl
  · intro env force acc tt req rt e rtxt d hne hpast henv
    dsimp only [authorize_refresh]
    rw [if_neg hne, if_neg hpast]
    dsimp only [refresh_exchange]
    rw [henv]
    rfl
  · intro env force acc tt req rt e msg hne hpast henv
    dsimp only [authorize_refresh]
    rw [if_neg hne, if_neg hpast]
    dsimp only [refresh_exchange]
    rw [henv]

/-- Witness for C9's amended theorem at concrete failing responses. -/
theorem auth_soft_fail_semantics_witness :
    (authorize_start 8 cfg0 env0 0 st_empty
      = ⟨{ st_empty with required := some true },
         [raw_request "GET" "authorize"
            [("response_type", "ecobeePin"), ("client_id", "APIKEY"),
             ("scope", "smartWrite")]],
         .ok ()⟩)
    ∧ (authorize_refresh 7 cfg0 envRefreshFailBody 0
        ⟨some "AT", some "RT", some "Bearer", some 0, some false⟩ true
      = ⟨⟨some "AT", some "RT", some "Bearer", some 0, some false⟩,
         [raw_request "POST" "token"
            [("grant_type", "refresh_token"), ("code", "RT"),
             ("client_id", "APIKEY")]],
         .ok ()⟩)
    ∧ (authorize_refresh 7 cfg0 envConnFail 0
        ⟨some "AT", some "RT", some "Bearer", some 0, some false⟩ true
      = ⟨⟨some "AT", some "RT", some "Bearer", some 0, some false⟩,
         [raw_request "POST" "token"
            [("grant_type", "refresh_token"), ("code", "RT"),
             ("client_id", "APIKEY")]],
         .error (.ecobee ("Connection error: " ++ "connection refused"))⟩) :=
  have T := auth_soft_fail_semantics 7 cfg0 0
  ⟨T.1 env0 st_empty "down" none rfl rfl (by decide),
   T.2.1 envRefreshFailBody true (some "AT") (some "Bearer") (some false)
     "RT" 0 "denied" "invalid_grant" (by decide) (by decide) rfl,
   T.2.2 envConnFail true (some "AT") (some "Bearer") (some false)
     "RT" 0 "connection refused" (by decide) (by decide) rfl⟩

end Ecobee
